import Mathlib

/-!
Shallow embedding of the nuclear-medicine vehicle-routing codebase
(`src/core/distance_matrix.py`, `src/core/optimizer.py`,
`src/core/use_cases/decay_calculator.py`, `src/core/simulator_dynamic.py`).
Python floats are modelled as real numbers; network responses are passed in
as explicit oracle arguments; fallible code returns `Except`.
-/

namespace NucMed

/-- Python `int()` applied to a float: truncation toward zero. -/
noncomputable def pyInt (x : ℝ) : ℤ :=
  if 0 ≤ x then ⌊x⌋ else ⌈x⌉

/-- Python `round()` to an integer: round-half-to-even (half-to-even rounding),
modelled over exact reals. For a fractional part other than 1/2 it agrees
with rounding to the nearest integer. -/
noncomputable def pyRoundInt (x : ℝ) : ℤ :=
  if x - ⌊x⌋ = 1 / 2 then (if Even ⌊x⌋ then ⌊x⌋ else ⌊x⌋ + 1) else round x

/-- Python `round(x, 1)`: one decimal digit, half-to-even. -/
noncomputable def pyRound1 (x : ℝ) : ℝ :=
  (pyRoundInt (x * 10) : ℝ) / 10

/-- Python `round(x, 0)`: zero decimal digits (still a float), half-to-even. -/
noncomputable def pyRound0 (x : ℝ) : ℝ :=
  (pyRoundInt x : ℝ)

/-- The `Location` dataclass of `distance_matrix.py`. -/
structure Location where
  lat : ℝ
  lon : ℝ

/-- Python `math.radians`. -/
noncomputable def radians (x : ℝ) : ℝ := x * Real.pi / 180

/-- Python `math.atan2 y x`, by the standard quadrant case split. -/
noncomputable def atan2 (y x : ℝ) : ℝ :=
  if 0 < x then Real.arctan (y / x)
  else if x < 0 then
    (if 0 ≤ y then Real.arctan (y / x) + Real.pi else Real.arctan (y / x) - Real.pi)
  else
    (if 0 < y then Real.pi / 2 else if y < 0 then -(Real.pi / 2) else 0)

/-- Embeds `get_haversine_distance` of `distance_matrix.py`: great-circle distance in
km, Earth radius 6371. -/
noncomputable def get_haversine_distance (origin destination : Location) : ℝ :=
  let R : ℝ := 6371
  let dlat := radians (destination.lat - origin.lat)
  let dlon := radians (destination.lon - origin.lon)
  let a := Real.sin (dlat / 2) ^ 2 +
    Real.cos (radians origin.lat) * Real.cos (radians destination.lat) *
      Real.sin (dlon / 2) ^ 2
  let c := 2 * atan2 (Real.sqrt a) (Real.sqrt (1 - a))
  R * c

/-- Embeds `calculate_duration_fallback` of `distance_matrix.py`: analytic travel
time in minutes from distance and destination tier. -/
noncomputable def calculate_duration_fallback (distance_km : ℝ) (tier : ℤ) : ℝ :=
  if tier = 1 ∨ tier = 2 then distance_km * 1.4 / 50 * 60
  else distance_km * 1.0 / 80 * 60

/-- The pure decay formula used by
`DecayCalculator.calculate_remaining_activity`. -/
noncomputable def remaining_activity_formula (initial_activity time_elapsed_hours
    half_life_hours : ℝ) : ℝ :=
  initial_activity * Real.exp (-(Real.log 2 / half_life_hours) * time_elapsed_hours)

/-- Embeds `DecayCalculator.calculate_remaining_activity` of `decay_calculator.py`:
raises `ValueError` for a non-positive half-life or a negative elapsed time,
otherwise returns `A₀ · e^(−(ln 2 / H) · t)`. -/
noncomputable def calculate_remaining_activity (initial_activity time_elapsed_hours
    half_life_hours : ℝ) : Except String ℝ :=
  if half_life_hours ≤ 0 then
    Except.error "Half-life must be greater than 0."
  else if time_elapsed_hours < 0 then
    Except.error "Time elapsed cannot be negative."
  else
    Except.ok (remaining_activity_formula initial_activity time_elapsed_hours half_life_hours)

/-- An avoid point as passed around by the code: a dict with keys lat and lon. -/
structure AvoidPoint where
  lat : ℝ
  lon : ℝ

/-- Embeds `_is_segment_near_point` of `distance_matrix.py`: sample the straight
segment at the 11 parameters i/10 (i = 0..10) and test whether any sample is
within `radius_km` of the point. -/
noncomputable def is_segment_near_point (origin dest : Location)
    (point_lat point_lon : ℝ) (radius_km : ℝ) : Prop :=
  ∃ i ∈ Finset.range 11,
    get_haversine_distance
      ⟨origin.lat + (dest.lat - origin.lat) * ((i : ℝ) / 10),
       origin.lon + (dest.lon - origin.lon) * ((i : ℝ) / 10)⟩
      ⟨point_lat, point_lon⟩ < radius_km

/-- Embeds `_calculate_detour_waypoint` of `distance_matrix.py`. -/
noncomputable def calculate_detour_waypoint (origin dest : Location)
    (avoid_lat avoid_lon : ℝ) : Location :=
  let dx := dest.lat - origin.lat
  let dy := dest.lon - origin.lon
  let px := -dy
  let py := dx
  let mag := Real.sqrt (px * px + py * py)
  if mag = 0 then ⟨avoid_lat + 0.04, avoid_lon⟩
  else
    let px1 := px / mag
    let py1 := py / mag
    let offset : ℝ := 0.045
    let wp1 : Location := ⟨avoid_lat + px1 * offset, avoid_lon + py1 * offset⟩
    let wp2 : Location := ⟨avoid_lat - px1 * offset, avoid_lon - py1 * offset⟩
    let mid : Location := ⟨(origin.lat + dest.lat) / 2, (origin.lon + dest.lon) / 2⟩
    let d1 := get_haversine_distance wp1 mid
    let d2 := get_haversine_distance wp2 mid
    if d1 < d2 then wp2 else wp1

/-- The plus-offset candidate `wp1` computed inside
`_calculate_detour_waypoint`. -/
noncomputable def detour_wp1 (origin dest : Location) (avoid_lat avoid_lon : ℝ) :
    Location :=
  let mag := Real.sqrt ((-(dest.lon - origin.lon)) * (-(dest.lon - origin.lon)) +
    (dest.lat - origin.lat) * (dest.lat - origin.lat))
  ⟨avoid_lat + -(dest.lon - origin.lon) / mag * 0.045,
   avoid_lon + (dest.lat - origin.lat) / mag * 0.045⟩

/-- The minus-offset candidate `wp2` computed inside
`_calculate_detour_waypoint`. -/
noncomputable def detour_wp2 (origin dest : Location) (avoid_lat avoid_lon : ℝ) :
    Location :=
  let mag := Real.sqrt ((-(dest.lon - origin.lon)) * (-(dest.lon - origin.lon)) +
    (dest.lat - origin.lat) * (dest.lat - origin.lat))
  ⟨avoid_lat - -(dest.lon - origin.lon) / mag * 0.045,
   avoid_lon - (dest.lat - origin.lat) / mag * 0.045⟩

/-- The midpoint `mid` of origin→dest computed inside
`_calculate_detour_waypoint`. -/
noncomputable def segment_mid (origin dest : Location) : Location :=
  ⟨(origin.lat + dest.lat) / 2, (origin.lon + dest.lon) / 2⟩

/-- One route entry of the JSON answer of the router: duration in seconds,
distance in metres, and the geometry already decoded from its encoded
polyline to a list of (lat, lon) pairs. -/
structure OsrmRouteEntry where
  duration : ℝ
  distance : ℝ
  geometry : List (ℝ × ℝ)

/-- The HTTP answer of the router: status code, the `code` field of the body, and
the list of routes. An `Except.error` models a raised exception (timeout,
connection error, malformed body). -/
structure OsrmResponse where
  status_code : ℕ
  code : String
  routes : List OsrmRouteEntry

/-- The record returned by `fetch_osrm_route_data`. -/
structure RouteData where
  duration_min : ℝ
  distance_km : ℝ
  geometry : List (ℝ × ℝ)
  detoured : Prop

/-- Embeds `fetch_osrm_route_data` of `distance_matrix.py`. The network answer is the
explicit `response` argument; the detour waypoint computed for impacted
segments only changes the request coordinates sent to the router (part of the
oracle), so it appears here only through the `detoured` flag. On any raised
exception or non-OK answer the analytic fallback record is returned. -/
noncomputable def fetch_osrm_route_data (origin dest : Location)
    (avoid_point : Option AvoidPoint) (response : Except String OsrmResponse) :
    RouteData :=
  let use_detour : Prop :=
    match avoid_point with
    | some ap => is_segment_near_point origin dest ap.lat ap.lon 2
    | none => False
  let fallback_data : RouteData :=
    { duration_min := calculate_duration_fallback (get_haversine_distance origin dest) 1,
      geometry := [(origin.lat, origin.lon), (dest.lat, dest.lon)],
      distance_km := get_haversine_distance origin dest,
      detoured := False }
  match response with
  | Except.error _ => fallback_data
  | Except.ok r =>
      if r.status_code = 200 ∧ r.code = "Ok" then
        match r.routes with
        | route :: _ =>
            { duration_min := route.duration / 60,
              distance_km := route.distance / 1000,
              geometry := route.geometry,
              detoured := use_detour }
        | [] => fallback_data
      else fallback_data

/-- A response on which the success branch of `fetch_osrm_route_data` does not
fire: a raised exception, a non-200 status, a body code other than Ok, or an
empty route list. -/
def osrm_request_failed : Except String OsrmResponse → Prop
  | Except.error _ => True
  | Except.ok r => ¬(r.status_code = 200 ∧ r.code = "Ok" ∧ r.routes ≠ [])



/-- The `Hospital` dataclass of `data_loader.py`. -/
structure Hospital where
  name : String
  lat : ℝ
  lon : ℝ
  tier : ℤ
  type : String
deriving Inhabited

/-- Embeds `Hospital.get_priority_weight` of `data_loader.py`: raises `ValueError`
on a tier outside 0..3. -/
noncomputable def Hospital.get_priority_weight (h : Hospital) : Except String ℝ :=
  if h.tier = 3 then Except.ok 1.0
  else if h.tier = 2 then Except.ok 2.0
  else if h.tier = 1 then Except.ok 3.0
  else if h.tier = 0 then Except.ok 0.0
  else Except.error "Invalid tier"

/-- Physics constants of `optimizer.py`. -/
noncomputable def HALF_LIFE_TC99M : ℝ := 6.0

/-- Initial activity constant of `optimizer.py`. -/
noncomputable def INITIAL_ACTIVITY : ℝ := 100.0

/-- Decay constant λ = ln 2 / 6 of `optimizer.py`. -/
noncomputable def LAMBDA : ℝ := Real.log 2 / HALF_LIFE_TC99M

/-- Futility threshold (percent) of `optimizer.py`. -/
noncomputable def FUTILITY_THRESHOLD : ℝ := 35.0

/-- Dose value constant of `optimizer.py`. -/
noncomputable def DOSE_VALUE_AUD : ℝ := 1500

/-- Embeds `cost_callback` of `optimizer.py` (`solve_and_report`): the arc cost the
solver minimizes, `int(tt * (1.0 / pw) * 100)` where `pw` is forced to 1.0
for a tier-0 destination and is the priority weight of the destination otherwise.
Solver indices are modelled as node ids. -/
noncomputable def cost_callback (hospitals : List Hospital)
    (time_matrix : ℕ → ℕ → ℝ) (from_node to_node : ℕ) : Except String ℤ := do
  let tt := time_matrix from_node to_node
  let dest := hospitals.getD to_node default
  let pw ← if dest.tier = 0 then Except.ok 1.0 else dest.get_priority_weight
  Except.ok (pyInt (tt * (1.0 / pw) * 100))

/-- Embeds `IsotopeOptimizer.is_segment_impacted` of `optimizer.py` (textually the
same 11-sample test as `_is_segment_near_point`). -/
noncomputable def is_segment_impacted (loc1 loc2 : Location)
    (lat lon : ℝ) (radius_km : ℝ) : Prop :=
  ∃ i ∈ Finset.range 11,
    get_haversine_distance
      ⟨loc1.lat + (loc2.lat - loc1.lat) * ((i : ℝ) / 10),
       loc1.lon + (loc2.lon - loc1.lon) * ((i : ℝ) / 10)⟩
      ⟨lat, lon⟩ < radius_km

open Classical

/-- Embeds `IsotopeOptimizer._apply_osrm_detour_durations` of `optimizer.py`, as a
per-cell rewrite of the time matrix. The Python loop mutates cell (i,j) in
place, but each iteration writes only cell (i,j) and reads only that same
cell plus immutable hospital coordinates, so the per-cell function is the
semantics of the loop. `route_oracle i j` is the `fetch_osrm_route_data` result
the network returns for arc (i,j). -/
noncomputable def apply_osrm_detour_durations (hospitals : List Hospital)
    (avoid : AvoidPoint) (route_oracle : ℕ → ℕ → RouteData)
    (M : ℕ → ℕ → ℝ) : ℕ → ℕ → ℝ :=
  fun i j =>
    if i < hospitals.length ∧ j < hospitals.length ∧ i ≠ j then
      let h1 := hospitals.getD i default
      let h2 := hospitals.getD j default
      let loc1 : Location := ⟨h1.lat, h1.lon⟩
      let loc2 : Location := ⟨h2.lat, h2.lon⟩
      let incident : Location := ⟨avoid.lat, avoid.lon⟩
      let d1 := get_haversine_distance loc1 incident
      let d2 := get_haversine_distance loc2 incident
      if d1 > 50 ∧ d2 > 50 then M i j
      else if is_segment_impacted loc1 loc2 avoid.lat avoid.lon 2 then
        max (M i j) ((route_oracle i j).duration_min)
      else M i j
    else M i j

/-- One step record built by `IsotopeOptimizer._export_solution`. -/
structure Step where
  name : String
  tier : ℤ
  arrival_time_min : ℤ
  lat : ℝ
  lon : ℝ
  potency : ℝ
  triage : String
deriving Inhabited

/-- The step built inside the walk loop of `_export_solution` for a visited
node: potency from exponential decay at the arrival minute, triage from the
potency thresholds, stored potency rounded to one decimal. -/
noncomputable def build_step (h : Hospital) (arr_min : ℤ) : Step :=
  let hrs := (arr_min : ℝ) / 60.0
  let potency := INITIAL_ACTIVITY * Real.exp (-LAMBDA * hrs)
  let triage :=
    if potency ≥ 70 then "OPTIMAL"
    else if potency ≥ FUTILITY_THRESHOLD then "DEGRADED"
    else "FUTILE"
  { name := h.name, tier := h.tier, arrival_time_min := arr_min,
    lat := h.lat, lon := h.lon, potency := pyRound1 potency, triage := triage }

/-- The end-node (depot return) step appended after the walk loop of
`_export_solution`: forced potency 100.0 and triage DEPOT. -/
noncomputable def build_depot_end_step (h : Hospital) (arr_min : ℤ) : Step :=
  { name := h.name, tier := h.tier, arrival_time_min := arr_min,
    lat := h.lat, lon := h.lon, potency := 100.0, triage := "DEPOT" }

/-- The list `all_steps` of `_export_solution` for one vehicle: the steps of the
visited nodes in solver order followed by the depot-return step. `visited`
pairs each visited hospital with its arrival minute. -/
noncomputable def build_all_steps (visited : List (Hospital × ℤ))
    (end_hospital : Hospital) (end_arr : ℤ) : List Step :=
  visited.map (fun p => build_step p.1 p.2) ++ [build_depot_end_step end_hospital end_arr]

/-- The separate-viable-from-futile loop of `_export_solution`: a step with
non-zero tier and potency below the futility threshold is relabelled
CANCELED and moved to the canceled list; every other step stays viable. -/
noncomputable def separate_viable_canceled : List Step → List Step × List Step
  | [] => ([], [])
  | s :: rest =>
      let vc := separate_viable_canceled rest
      if s.tier ≠ 0 ∧ s.potency < FUTILITY_THRESHOLD then
        (vc.1, { s with triage := "CANCELED" } :: vc.2)
      else (s :: vc.1, vc.2)

/-- The value `van_stops` of `_export_solution`: the non-depot viable steps. -/
noncomputable def van_stops (viable : List Step) : List Step :=
  viable.filter (fun s => s.tier ≠ 0)

/-- The value `van_preserved` of `_export_solution`. -/
noncomputable def van_preserved (viable : List Step) : ℝ :=
  ((van_stops viable).map (fun s => s.potency / 100.0 * DOSE_VALUE_AUD)).sum

/-- The value `van_waste` of `_export_solution` (including the canceled deliveries,
which count as 100% waste). -/
noncomputable def van_waste (viable canceled : List Step) : ℝ :=
  ((van_stops viable).map (fun s => (100 - s.potency) / 100.0 * DOSE_VALUE_AUD)).sum +
    (canceled.length : ℝ) * DOSE_VALUE_AUD

/-- The value `van_mission` of `_export_solution`. -/
noncomputable def van_mission (viable canceled : List Step) : ℝ :=
  (((van_stops viable).length : ℝ) + (canceled.length : ℝ)) * DOSE_VALUE_AUD

/-- The location records handed to `generate_distance_matrix` (dicts with
lat, lon, tier). -/
structure LocRec where
  lat : ℝ
  lon : ℝ
  tier : ℤ
deriving Inhabited

/-- The `TfNSWClient` of `distance_matrix.py`, reduced to what
`generate_distance_matrix` consults: whether a token is configured. -/
structure TfNSWClient where
  token : Option String

/-- Embeds `generate_distance_matrix` of `distance_matrix.py`. `trip` is the
network oracle standing for `client.get_trip_duration` (None on any
failure); it is consulted only when a client with a token is present. -/
noncomputable def generate_distance_matrix (locations : List LocRec)
    (client : Option TfNSWClient)
    (trip : Location → Location → Option ℝ) : List (List ℝ) :=
  let n := locations.length
  let use_api : Bool :=
    match client with
    | some c => c.token.isSome
    | none => false
  (List.range n).map fun i =>
    (List.range n).map fun j =>
      if i = j then 0
      else
        let origin : Location := ⟨(locations.getD i default).lat, (locations.getD i default).lon⟩
        let dest : Location := ⟨(locations.getD j default).lat, (locations.getD j default).lon⟩
        let dest_tier := (locations.getD j default).tier
        let duration := if use_api then trip origin dest else none
        match duration with
        | some d => d
        | none => calculate_duration_fallback (get_haversine_distance origin dest) dest_tier





/-- Dynamically-typed Python/JSON values as read back from `routes.json` by
`simulator_dynamic.py` (numbers as exact rationals). -/
inductive PyVal where
  | pstr : String → PyVal
  | pnum : ℚ → PyVal
  | plist : List PyVal → PyVal
  | pdict : List (String × PyVal) → PyVal

/-- Python subscript `v[key]` with a string key: dict lookup, `TypeError` on
a string (string indices must be integers) or any other non-dict value. -/
def pyGetStr : PyVal → String → Except String PyVal
  | PyVal.pdict kvs, key =>
      match kvs.find? (fun kv => kv.1 == key) with
      | some kv => Except.ok kv.2
      | none => Except.error "KeyError"
  | PyVal.pstr _, _ => Except.error "TypeError: string indices must be integers"
  | _, _ => Except.error "TypeError"

/-- Python subscript `v[i]` with a non-negative integer index. -/
def pyGetIdx : PyVal → ℕ → Except String PyVal
  | PyVal.plist xs, i =>
      match xs.get? i with
      | some v => Except.ok v
      | none => Except.error "IndexError"
  | _, _ => Except.error "TypeError"

/-- Python `len(v)`. -/
def pyLen : PyVal → Except String ℕ
  | PyVal.plist xs => Except.ok xs.length
  | PyVal.pdict kvs => Except.ok kvs.length
  | PyVal.pstr s => Except.ok s.length
  | PyVal.pnum _ => Except.error "TypeError"


/-- Tests whether `needle` occurs as a contiguous sublist of the second argument. -/
def isSubList (needle : List Char) : List Char → Bool
  | [] => needle.isPrefixOf []
  | c :: rest => needle.isPrefixOf (c :: rest) || isSubList needle rest

/-- Python `needle in v` for a string `v`: substring test; `TypeError` on a
non-string. -/
def pyInStr (needle : String) : PyVal → Except String Bool
  | PyVal.pstr s => Except.ok (isSubList needle.data s.data)
  | _ => Except.error "TypeError"

/-- First loop of `DynamicSimulator.run_m5_scenario` target selection: the
first route whose `steps` has more than one entry and whose `steps[0].name`
contains the substring St George. Short-circuit evaluation of the Python
`and` is preserved. -/
def find_st_george_route : List PyVal → Except String (Option PyVal)
  | [] => Except.ok none
  | r :: rest => do
      let steps ← pyGetStr r "steps"
      let n ← pyLen steps
      if n > 1 then
        let s0 ← pyGetIdx steps 0
        let nm ← pyGetStr s0 "name"
        let b ← pyInStr "St George" nm
        if b then Except.ok (some r) else find_st_george_route rest
      else find_st_george_route rest

/-- Second loop of the target selection: the first route whose `steps` is
non-empty and whose `steps[0].tier` equals 1 (a Python `==` against a
non-number is simply false). -/
def find_metro_route : List PyVal → Except String (Option PyVal)
  | [] => Except.ok none
  | r :: rest => do
      let steps ← pyGetStr r "steps"
      let n ← pyLen steps
      if n > 0 then
        let s0 ← pyGetIdx steps 0
        let t ← pyGetStr s0 "tier"
        let b : Bool := match t with | PyVal.pnum q => q == 1 | _ => false
        if b then Except.ok (some r) else find_metro_route rest
      else find_metro_route rest

/-- Steps 1–2 of `run_m5_scenario`: iterate `routes_data` (the value loaded
from `output/routes.json`) looking for the St George route, then fall back
to the first Metro route. Iterating a Python dict yields its keys. -/
def pick_target_route (routes_data : PyVal) : Except String (Option PyVal) := do
  let items ←
    match routes_data with
    | PyVal.plist xs => Except.ok xs
    | PyVal.pdict kvs => Except.ok (kvs.map (fun kv => PyVal.pstr kv.1))
    | _ => Except.error "TypeError: not iterable"
  let first ← find_st_george_route items
  match first with
  | some r => Except.ok (some r)
  | none => find_metro_route items

/-- A baseline route list as the materializer produces it: the viable steps
begin and end with the tier-0 depot marker, and the first non-depot stop is
the tier-1 St George Hospital. -/
def example_routes : List PyVal :=
  [PyVal.pdict
    [("vehicle_id", PyVal.pnum 0),
     ("steps", PyVal.plist
       [PyVal.pdict [("name", PyVal.pstr "ANSTO Lucas Heights"), ("tier", PyVal.pnum 0)],
        PyVal.pdict [("name", PyVal.pstr "St George Hospital"), ("tier", PyVal.pnum 1)],
        PyVal.pdict [("name", PyVal.pstr "ANSTO Lucas Heights"), ("tier", PyVal.pnum 0)]]),
     ("canceled", PyVal.plist [])]]

/-- The payload `IsotopeOptimizer._export_solution` writes to
`output/routes.json`: an object with a `routes` list and an `analytics`
object — not a bare list of routes. -/
def example_payload : PyVal :=
  PyVal.pdict [("routes", PyVal.plist example_routes), ("analytics", PyVal.pdict [])]

lemma calculate_remaining_activity_ok (A t H : ℝ) (hH : 0 < H) (ht : 0 ≤ t) :
    calculate_remaining_activity A t H =
      Except.ok (remaining_activity_formula A t H) := by
  unfold calculate_remaining_activity
  rw [if_neg (not_le.mpr hH), if_neg (not_lt.mpr ht)]

lemma arctan_nonneg_of_nonneg {z : ℝ} (h : 0 ≤ z) : 0 ≤ Real.arctan z := by
  have hm := Real.arctan_strictMono.monotone h
  rwa [Real.arctan_zero] at hm

lemma arctan_pos_of_pos {z : ℝ} (h : 0 < z) : 0 < Real.arctan z := by
  have hm := Real.arctan_strictMono h
  rwa [Real.arctan_zero] at hm

lemma atan2_nonneg (y x : ℝ) (hy : 0 ≤ y) : 0 ≤ atan2 y x := by
  unfold atan2
  rcases lt_trichotomy x 0 with hx | hx | hx
  · rw [if_neg (by linarith), if_pos hx, if_pos hy]
    have := Real.neg_pi_div_two_lt_arctan (y / x)
    nlinarith [Real.pi_pos]
  · subst hx
    rw [if_neg (lt_irrefl 0), if_neg (lt_irrefl 0)]
    rcases eq_or_lt_of_le hy with hy0 | hy0
    · rw [if_neg (by rw [← hy0]; exact lt_irrefl 0),
        if_neg (by rw [← hy0]; exact lt_irrefl 0)]
    · rw [if_pos hy0]; positivity
  · rw [if_pos hx]
    exact arctan_nonneg_of_nonneg (div_nonneg hy hx.le)

lemma get_haversine_distance_nonneg (o d : Location) :
    0 ≤ get_haversine_distance o d := by
  simp only [get_haversine_distance]
  have h := atan2_nonneg
    (Real.sqrt (Real.sin (radians (d.lat - o.lat) / 2) ^ 2 +
      Real.cos (radians o.lat) * Real.cos (radians d.lat) *
        Real.sin (radians (d.lon - o.lon) / 2) ^ 2))
    (Real.sqrt (1 - (Real.sin (radians (d.lat - o.lat) / 2) ^ 2 +
      Real.cos (radians o.lat) * Real.cos (radians d.lat) *
        Real.sin (radians (d.lon - o.lon) / 2) ^ 2)))
    (Real.sqrt_nonneg _)
  linarith [h]

lemma get_haversine_distance_self (p : Location) :
    get_haversine_distance p p = 0 := by
  simp only [get_haversine_distance, radians, atan2]
  norm_num [Real.sqrt_one, Real.arctan_zero]

lemma get_haversine_distance_pos_of_lat {o d : Location} (hlon : o.lon = d.lon)
    (h0 : 0 < d.lat - o.lat) (h180 : d.lat - o.lat < 180) :
    0 < get_haversine_distance o d := by
  simp only [get_haversine_distance, radians]
  rw [hlon, sub_self]
  rw [show (0 : ℝ) * Real.pi / 180 / 2 = 0 by ring, Real.sin_zero,
    zero_pow two_ne_zero, mul_zero, add_zero]
  set x := (d.lat - o.lat) * Real.pi / 180 / 2 with hx
  have hx0 : 0 < x := by
    rw [hx]
    exact div_pos (div_pos (mul_pos h0 Real.pi_pos) (by norm_num)) (by norm_num)
  have hxpi2 : x < Real.pi / 2 := by
    rw [hx]
    nlinarith [Real.pi_pos]
  have hsin0 : 0 < Real.sin x :=
    Real.sin_pos_of_pos_of_lt_pi hx0 (lt_trans hxpi2 (by linarith [Real.pi_pos]))
  have hsin1 : Real.sin x < 1 := by
    calc Real.sin x < Real.sin (Real.pi / 2) :=
          Real.strictMonoOn_sin ⟨by linarith [Real.pi_pos], hxpi2.le⟩
            ⟨by linarith [Real.pi_pos], le_refl _⟩ hxpi2
    _ = 1 := Real.sin_pi_div_two
  have hs1 : 0 < Real.sqrt (Real.sin x ^ 2) := Real.sqrt_pos.mpr (by positivity)
  have hs2 : 0 < Real.sqrt (1 - Real.sin x ^ 2) := Real.sqrt_pos.mpr (by nlinarith)
  unfold atan2
  rw [if_pos hs2]
  have harc := arctan_pos_of_pos (div_pos hs1 hs2)
  linarith


lemma get_haversine_distance_same_lon {o d : Location} (hlon : o.lon = d.lon)
    (h0 : 0 ≤ d.lat - o.lat) (h180 : d.lat - o.lat < 180) :
    get_haversine_distance o d = 6371 * ((d.lat - o.lat) * Real.pi / 180) := by
  simp only [get_haversine_distance, radians]
  rw [hlon, sub_self]
  rw [show (0 : ℝ) * Real.pi / 180 / 2 = 0 by ring, Real.sin_zero,
    zero_pow two_ne_zero, mul_zero, add_zero]
  set x := (d.lat - o.lat) * Real.pi / 180 / 2 with hx
  have hx0 : 0 ≤ x := by
    rw [hx]
    exact div_nonneg (div_nonneg (mul_nonneg h0 Real.pi_pos.le) (by norm_num))
      (by norm_num)
  have hxpi2 : x < Real.pi / 2 := by
    rw [hx]
    nlinarith [Real.pi_pos]
  have hcos : 0 < Real.cos x :=
    Real.cos_pos_of_mem_Ioo ⟨by linarith [Real.pi_pos], hxpi2⟩
  have hs : Real.sqrt (Real.sin x ^ 2) = Real.sin x :=
    Real.sqrt_sq (Real.sin_nonneg_of_nonneg_of_le_pi hx0
      (by linarith [Real.pi_pos]))
  have hc : Real.sqrt (1 - Real.sin x ^ 2) = Real.cos x := by
    rw [show (1 : ℝ) - Real.sin x ^ 2 = Real.cos x ^ 2 by
      have hsc := Real.sin_sq_add_cos_sq x
      linarith]
    exact Real.sqrt_sq hcos.le
  rw [hs, hc]
  unfold atan2
  rw [if_pos hcos, ← Real.tan_eq_sin_div_cos,
    Real.arctan_tan (by linarith [Real.pi_pos]) hxpi2]
  rw [hx]
  ring

lemma get_haversine_distance_comm (o d : Location) :
    get_haversine_distance o d = get_haversine_distance d o := by
  simp only [get_haversine_distance, radians]
  rw [show (o.lat - d.lat) * Real.pi / 180 / 2 =
      -((d.lat - o.lat) * Real.pi / 180 / 2) by ring]
  rw [show (o.lon - d.lon) * Real.pi / 180 / 2 =
      -((d.lon - o.lon) * Real.pi / 180 / 2) by ring]
  rw [Real.sin_neg, Real.sin_neg, neg_sq, neg_sq,
    mul_comm (Real.cos (d.lat * Real.pi / 180)) (Real.cos (o.lat * Real.pi / 180))]

end NucMed

lemma pyRound1_hundred : NucMed.pyRound1 100 = 100 := by
  have h1000 : ⌊(1000 : ℝ)⌋ = 1000 := by
    rw [Int.floor_eq_iff]
    constructor <;> norm_num
  rw [NucMed.pyRound1, NucMed.pyRoundInt,
    show (100 : ℝ) * 10 = 1000 by norm_num, h1000]
  rw [if_neg (by norm_num)]
  rw [round_eq, show (1000 : ℝ) + 1 / 2 = 2001 / 2 by norm_num]
  have h2001 : ⌊(2001 / 2 : ℝ)⌋ = 1000 := by
    rw [Int.floor_eq_iff]
    constructor <;> norm_num
  rw [h2001]
  norm_num

lemma build_step_zero (h : NucMed.Hospital) :
    (NucMed.build_step h 0).triage = "OPTIMAL" ∧
    (NucMed.build_step h 0).potency = 100 := by
  have hpot : NucMed.INITIAL_ACTIVITY *
      Real.exp (-NucMed.LAMBDA * (((0 : ℤ) : ℝ) / 60.0)) = 100 := by
    norm_num [NucMed.INITIAL_ACTIVITY, Real.exp_zero]
  constructor
  · simp only [NucMed.build_step]
    rw [if_pos (by rw [hpot]; norm_num)]
  · simp only [NucMed.build_step]
    rw [hpot]
    exact pyRound1_hundred

lemma getD_map_range {α : Type} (n i : ℕ) (f : ℕ → α) (d : α) (h : i < n) :
    ((List.range n).map f).getD i d = f i := by
  rw [List.getD_eq_getElem?_getD, List.getElem?_map, List.getElem?_range h]
  rfl


/-- C10: for every origin, destination, and avoid-point, `fetch_osrm_route_data`
is total: on any exception or non-OK router response it returns the fallback
record whose duration is the analytic fallback for the haversine distance at
tier 1 (non-negative), whose geometry is exactly [origin, dest], and whose
detoured flag is false. -/
theorem C10_fetch_route_data_fallback (origin dest : NucMed.Location)
    (ap : Option NucMed.AvoidPoint) (resp : Except String NucMed.OsrmResponse)
    (h : NucMed.osrm_request_failed resp) :
    NucMed.fetch_osrm_route_data origin dest ap resp =
      { duration_min := NucMed.calculate_duration_fallback
          (NucMed.get_haversine_distance origin dest) 1,
        geometry := [(origin.lat, origin.lon), (dest.lat, dest.lon)],
        distance_km := NucMed.get_haversine_distance origin dest,
        detoured := False } ∧
    0 ≤ (NucMed.fetch_osrm_route_data origin dest ap resp).duration_min := by
  have hmain : NucMed.fetch_osrm_route_data origin dest ap resp =
      { duration_min := NucMed.calculate_duration_fallback
          (NucMed.get_haversine_distance origin dest) 1,
        geometry := [(origin.lat, origin.lon), (dest.lat, dest.lon)],
        distance_km := NucMed.get_haversine_distance origin dest,
        detoured := False } := by
    cases resp with
    | error e => rfl
    | ok r =>
      simp only [NucMed.osrm_request_failed] at h
      simp only [NucMed.fetch_osrm_route_data]
      by_cases hc : r.status_code = 200 ∧ r.code = "Ok"
      · rw [if_pos hc]
        cases hr : r.routes with
        | nil => rfl
        | cons a l =>
          exact absurd ⟨hc.1, hc.2, by rw [hr]; exact List.cons_ne_nil a l⟩ h
      · rw [if_neg hc]
  refine ⟨hmain, ?_⟩
  rw [hmain]
  show 0 ≤ NucMed.calculate_duration_fallback (NucMed.get_haversine_distance origin dest) 1
  unfold NucMed.calculate_duration_fallback
  rw [if_pos (Or.inl rfl)]
  have hd := NucMed.get_haversine_distance_nonneg origin dest
  nlinarith

/-- Witness for C10: a raised exception (timeout) on a concrete arc. -/
theorem C10_fetch_route_data_fallback_witness :
    NucMed.osrm_request_failed (Except.error "timeout") ∧
    (NucMed.fetch_osrm_route_data ⟨0, 0⟩ ⟨1, 1⟩ none (Except.error "timeout") =
      { duration_min := NucMed.calculate_duration_fallback
          (NucMed.get_haversine_distance ⟨0, 0⟩ ⟨1, 1⟩) 1,
        geometry := [(0, 0), (1, 1)],
        distance_km := NucMed.get_haversine_distance ⟨0, 0⟩ ⟨1, 1⟩,
        detoured := False } ∧
    0 ≤ (NucMed.fetch_osrm_route_data ⟨0, 0⟩ ⟨1, 1⟩ none
          (Except.error "timeout")).duration_min) :=
  ⟨True.intro,
    C10_fetch_route_data_fallback ⟨0, 0⟩ ⟨1, 1⟩ none (Except.error "timeout") True.intro⟩

/-- C4 counterexample: origin (0,0), dest (0,1), avoid-point (0.01, 0.5).
The avoid-point lies about 1.11 km from the segment sample at t = 0.5, so
the straight segment IS impacted (11-sample test, 2 km radius). The two
candidates are wp1 = (−0.035, 0.5) and wp2 = (0.055, 0.5), and the midpoint
of origin→dest is (0, 0.5); wp1 is strictly closer to the midpoint, yet
`_calculate_detour_waypoint` returns wp2: on an impacted segment the
function does not return the candidate closer to the midpoint. -/
theorem C4_detour_waypoint_counterexample :
    NucMed.is_segment_near_point ⟨0, 0⟩ ⟨0, 1⟩ 0.01 0.5 2 ∧
    NucMed.calculate_detour_waypoint ⟨0, 0⟩ ⟨0, 1⟩ 0.01 0.5 =
      NucMed.Location.mk 0.055 0.5 ∧
    NucMed.get_haversine_distance ⟨-0.035, 0.5⟩ ⟨0, 0.5⟩ <
      NucMed.get_haversine_distance ⟨0.055, 0.5⟩ ⟨0, 0.5⟩ := by
  have hd1 : NucMed.get_haversine_distance ⟨-0.035, 0.5⟩ ⟨0, 0.5⟩ =
      6371 * (((0 : ℝ) - -0.035) * Real.pi / 180) :=
    NucMed.get_haversine_distance_same_lon rfl (by norm_num) (by norm_num)
  have hd2 : NucMed.get_haversine_distance ⟨0.055, 0.5⟩ ⟨0, 0.5⟩ =
      6371 * (((0.055 : ℝ) - 0) * Real.pi / 180) := by
    rw [NucMed.get_haversine_distance_comm]
    exact NucMed.get_haversine_distance_same_lon rfl (by norm_num) (by norm_num)
  have hlt : NucMed.get_haversine_distance ⟨-0.035, 0.5⟩ ⟨0, 0.5⟩ <
      NucMed.get_haversine_distance ⟨0.055, 0.5⟩ ⟨0, 0.5⟩ := by
    rw [hd1, hd2]
    nlinarith [Real.pi_pos]
  refine ⟨?_, ?_, hlt⟩
  · refine ⟨5, by decide, ?_⟩
    have hb : NucMed.get_haversine_distance ⟨0, 0.5⟩ ⟨0.01, 0.5⟩ =
        6371 * (((0.01 : ℝ) - 0) * Real.pi / 180) :=
      NucMed.get_haversine_distance_same_lon rfl (by norm_num) (by norm_num)
    have hbound : NucMed.get_haversine_distance ⟨0, 0.5⟩ ⟨0.01, 0.5⟩ < 2 := by
      rw [hb]
      nlinarith [Real.pi_lt_d2, Real.pi_pos]
    convert hbound using 2
    all_goals norm_num
  · simp only [NucMed.calculate_detour_waypoint]
    rw [show ((-((1 : ℝ) - 0)) * (-(1 - 0)) + (0 - 0) * (0 - 0)) = 1 by norm_num,
      Real.sqrt_one]
    rw [if_neg one_ne_zero]
    norm_num
    norm_num at hlt
    exact hlt

/-- C1: for every time matrix and every avoid-point, after the disruption
injector runs, every cell is ≥ the corresponding original cell: an impacted
entry becomes max(original, detour duration) and every other entry is
unchanged, so no cell ever decreases. -/
theorem C1_detour_matrix_never_decreases (hospitals : List NucMed.Hospital)
    (avoid : NucMed.AvoidPoint) (route_oracle : ℕ → ℕ → NucMed.RouteData)
    (M : ℕ → ℕ → ℝ) (i j : ℕ) :
    M i j ≤ NucMed.apply_osrm_detour_durations hospitals avoid route_oracle M i j ∧
    (NucMed.apply_osrm_detour_durations hospitals avoid route_oracle M i j = M i j ∨
      NucMed.apply_osrm_detour_durations hospitals avoid route_oracle M i j =
        max (M i j) ((route_oracle i j).duration_min)) := by
  unfold NucMed.apply_osrm_detour_durations
  dsimp only
  split_ifs <;>
    first
      | exact ⟨le_refl _, Or.inl rfl⟩
      | exact ⟨le_max_left _ _, Or.inr rfl⟩

/-- C2 counterexample: on the arc from the depot to a tier-3 destination with
travel time 0.007 minutes, the `int(...)` truncation in the cost callback yields
0, while rounding the product 0.7 to the nearest integer yields 1: the cost
is not the rounded value of the product. -/
theorem C2_cost_callback_counterexample :
    NucMed.cost_callback
      [⟨"Source", 0, 0, 0, "Source"⟩, ⟨"Remote", 0, 1, 3, "Remote"⟩]
      (fun _ _ => 0.007) 0 1 = Except.ok 0 ∧
    round ((0.007 : ℝ) * (1.0 / 1.0) * 100) = 1 ∧ (0 : ℤ) ≠ 1 := by
  have hfloor : NucMed.pyInt ((0.007 : ℝ) * (1.0 / 1.0) * 100) = 0 := by
    rw [show (0.007 : ℝ) * (1.0 / 1.0) * 100 = 0.7 by norm_num]
    rw [NucMed.pyInt, if_pos (by norm_num)]
    rw [Int.floor_eq_iff]
    constructor <;> norm_num
  refine ⟨?_, ?_, by decide⟩
  · exact congrArg Except.ok hfloor
  · rw [round_eq, show (0.007 : ℝ) * (1.0 / 1.0) * 100 + 1 / 2 = 1.2 by norm_num]
    rw [Int.floor_eq_iff]
    constructor <;> norm_num

/-- C2 (amended): the arc cost is `int(tt × (1/pw) × 100)` — truncation
toward zero, which for the non-negative products arising from a non-negative
time matrix is the floor, not the nearest-integer rounding; the weight used
for a tier-0 destination is forced to 1.0, encoded in the hypothesis on pw. -/
theorem C2_amended_cost_callback_floor (hospitals : List NucMed.Hospital)
    (M : ℕ → ℕ → ℝ) (fn tn : ℕ) (pw : ℝ)
    (hpw : (if (hospitals.getD tn default).tier = 0 then Except.ok (1.0 : ℝ)
        else (hospitals.getD tn default).get_priority_weight) = Except.ok pw)
    (hpos : 0 < pw) (hM : 0 ≤ M fn tn) :
    NucMed.cost_callback hospitals M fn tn =
      Except.ok ⌊M fn tn * (1 / pw) * 100⌋ := by
  have hx : 0 ≤ M fn tn * (1.0 / pw) * 100 :=
    mul_nonneg (mul_nonneg hM (div_nonneg (by norm_num) hpos.le)) (by norm_num)
  have hval : NucMed.pyInt (M fn tn * (1.0 / pw) * 100) = ⌊M fn tn * (1 / pw) * 100⌋ := by
    rw [NucMed.pyInt, if_pos hx]
    norm_num
  by_cases htier : (hospitals.getD tn default).tier = 0
  · rw [if_pos htier] at hpw
    have hpw1 : (1.0 : ℝ) = pw := Except.ok.inj hpw
    simp only [NucMed.cost_callback]
    rw [if_pos htier]
    rw [hpw1] at hval ⊢
    exact congrArg Except.ok hval
  · rw [if_neg htier] at hpw
    simp only [NucMed.cost_callback]
    rw [if_neg htier, hpw]
    exact congrArg Except.ok hval

/-- Witness for the amended C2 at a concrete tier-3 arc with pw = 1. -/
theorem C2_amended_cost_callback_floor_witness :
    (0 : ℝ) < 1 ∧ (0 : ℝ) ≤ (0.007 : ℝ) ∧
    NucMed.cost_callback
      [⟨"Source", 0, 0, 0, "Source"⟩, ⟨"Remote", 0, 1, 3, "Remote"⟩]
      (fun _ _ => 0.007) 0 1 = Except.ok ⌊(0.007 : ℝ) * (1 / 1) * 100⌋ := by
  have hpw : (if ((([⟨"Source", 0, 0, 0, "Source"⟩, ⟨"Remote", 0, 1, 3, "Remote"⟩] :
        List NucMed.Hospital).getD 1 default).tier = 0) then Except.ok (1.0 : ℝ)
      else (([⟨"Source", 0, 0, 0, "Source"⟩, ⟨"Remote", 0, 1, 3, "Remote"⟩] :
        List NucMed.Hospital).getD 1 default).get_priority_weight) =
        Except.ok (1 : ℝ) := by
    simp only [List.getD_cons_succ, List.getD_cons_zero,
      NucMed.Hospital.get_priority_weight]
    norm_num
  exact ⟨by norm_num, by norm_num,
    C2_amended_cost_callback_floor _ (fun _ _ => 0.007) 0 1 1 hpw (by norm_num)
      (by norm_num)⟩

/-- C3: the split of the step sequence by the materializer satisfies, for every
input: every viable stop except the depot marker (tier 0) has potency ≥ the
futility threshold (= 35), and every canceled stop has potency < it. -/
theorem C3_viable_canceled_partition (steps : List NucMed.Step) :
    NucMed.FUTILITY_THRESHOLD = 35 ∧
    (∀ s ∈ (NucMed.separate_viable_canceled steps).1, s.tier ≠ 0 →
      NucMed.FUTILITY_THRESHOLD ≤ s.potency) ∧
    (∀ s ∈ (NucMed.separate_viable_canceled steps).2,
      s.potency < NucMed.FUTILITY_THRESHOLD) := by
  refine ⟨by norm_num [NucMed.FUTILITY_THRESHOLD], ?_⟩
  induction steps with
  | nil =>
    constructor <;> intro s hs <;>
      simp [NucMed.separate_viable_canceled] at hs
  | cons a rest ih =>
    obtain ⟨ih1, ih2⟩ := ih
    constructor
    · intro s hs htier
      simp only [NucMed.separate_viable_canceled] at hs
      by_cases hc : a.tier ≠ 0 ∧ a.potency < NucMed.FUTILITY_THRESHOLD
      · rw [if_pos hc] at hs
        exact ih1 s hs htier
      · rw [if_neg hc] at hs
        rcases List.mem_cons.mp hs with h | h
        · subst h
          push_neg at hc
          exact hc htier
        · exact ih1 s h htier
    · intro s hs
      simp only [NucMed.separate_viable_canceled] at hs
      by_cases hc : a.tier ≠ 0 ∧ a.potency < NucMed.FUTILITY_THRESHOLD
      · rw [if_pos hc] at hs
        rcases List.mem_cons.mp hs with h | h
        · subst h
          exact hc.2
        · exact ih2 s h
      · rw [if_neg hc] at hs
        exact ih2 s hs

/-- Witness for C3 on a one-step list: a tier-1 stop with potency 40 stays
viable and its potency is at or above the threshold. -/
theorem C3_viable_canceled_partition_witness :
    ((⟨"A", 1, 100, 0, 0, 40, "DEGRADED"⟩ : NucMed.Step) ∈
      (NucMed.separate_viable_canceled
        [⟨"A", 1, 100, 0, 0, 40, "DEGRADED"⟩]).1 ∧
      ((⟨"A", 1, 100, 0, 0, 40, "DEGRADED"⟩ : NucMed.Step).tier ≠ 0)) ∧
    NucMed.FUTILITY_THRESHOLD ≤
      (⟨"A", 1, 100, 0, 0, 40, "DEGRADED"⟩ : NucMed.Step).potency := by
  have hmem : (⟨"A", 1, 100, 0, 0, 40, "DEGRADED"⟩ : NucMed.Step) ∈
      (NucMed.separate_viable_canceled
        [⟨"A", 1, 100, 0, 0, 40, "DEGRADED"⟩]).1 := by
    norm_num [NucMed.separate_viable_canceled, NucMed.FUTILITY_THRESHOLD]
  exact ⟨⟨hmem, by decide⟩,
    (C3_viable_canceled_partition [⟨"A", 1, 100, 0, 0, 40, "DEGRADED"⟩]).2.1 _
      hmem (by decide)⟩

/-- C5: for every vehicle, preserved value plus waste value equals mission
value: the per-stop preserved and wasted shares sum to one dose value, and
each canceled stop contributes a full dose value to both waste and mission. -/
theorem C5_financial_identity (viable canceled : List NucMed.Step) :
    NucMed.van_preserved viable + NucMed.van_waste viable canceled =
      NucMed.van_mission viable canceled := by
  unfold NucMed.van_preserved NucMed.van_waste NucMed.van_mission
  simp only [NucMed.DOSE_VALUE_AUD]
  generalize NucMed.van_stops viable = l
  induction l with
  | nil => norm_num
  | cons s t ih =>
    simp only [List.map_cons, List.sum_cons, List.length_cons]
    push_cast at ih ⊢
    nlinarith [ih]

/-- C6 counterexample: a vehicle whose solver sequence starts at the depot
(arrival minute 0): the exported start-depot step is labelled by the potency
thresholds as OPTIMAL, not DEPOT, so not every depot step carries the DEPOT
label. -/
theorem C6_depot_triage_counterexample :
    ((NucMed.build_all_steps [(⟨"ANSTO", 0, 0, 0, "Source"⟩, 0)]
        ⟨"ANSTO", 0, 0, 0, "Source"⟩ 30).getD 0 default).tier = 0 ∧
    ((NucMed.build_all_steps [(⟨"ANSTO", 0, 0, 0, "Source"⟩, 0)]
        ⟨"ANSTO", 0, 0, 0, "Source"⟩ 30).getD 0 default).triage = "OPTIMAL" ∧
    ("OPTIMAL" : String) ≠ "DEPOT" := by
  refine ⟨?_, ?_, by decide⟩
  · simp only [NucMed.build_all_steps, List.map_cons, List.cons_append,
      List.getD_cons_zero]
    rfl
  · simp only [NucMed.build_all_steps, List.map_cons, List.cons_append,
      List.getD_cons_zero]
    exact (build_step_zero _).1

/-- C6 (amended): in every exported plan the depot step at the END of the
sequence of each vehicle carries triage DEPOT with forced potency 100; the depot
step at the START is labelled by the potency thresholds like any visited
node, which at its arrival minute 0 yields potency 100 and the label
OPTIMAL, not DEPOT. -/
theorem C6_amended_depot_labels (visited : List (NucMed.Hospital × ℤ))
    (end_hospital : NucMed.Hospital) (end_arr : ℤ) :
    (NucMed.build_all_steps visited end_hospital end_arr).getLast? =
      some (NucMed.build_depot_end_step end_hospital end_arr) ∧
    (NucMed.build_depot_end_step end_hospital end_arr).triage = "DEPOT" ∧
    (NucMed.build_depot_end_step end_hospital end_arr).potency = 100 ∧
    (∀ h₀ rest, visited = (h₀, 0) :: rest →
      ((NucMed.build_all_steps visited end_hospital end_arr).getD 0
          default).triage = "OPTIMAL" ∧
      ((NucMed.build_all_steps visited end_hospital end_arr).getD 0
          default).potency = 100) := by
  refine ⟨?_, rfl, by norm_num [NucMed.build_depot_end_step], ?_⟩
  · unfold NucMed.build_all_steps
    rw [List.getLast?_concat]
  · intro h₀ rest hv
    subst hv
    unfold NucMed.build_all_steps
    simp only [List.map_cons, List.cons_append, List.getD_cons_zero]
    exact build_step_zero h₀

/-- Witness for the amended C6 on a concrete one-stop route. -/
theorem C6_amended_depot_labels_witness :
    ([((⟨"ANSTO", 0, 0, 0, "Source"⟩ : NucMed.Hospital), (0 : ℤ))] =
      ((⟨"ANSTO", 0, 0, 0, "Source"⟩ : NucMed.Hospital), (0 : ℤ)) :: []) ∧
    ((NucMed.build_all_steps [(⟨"ANSTO", 0, 0, 0, "Source"⟩, 0)]
        ⟨"ANSTO", 0, 0, 0, "Source"⟩ 30).getD 0 default).triage = "OPTIMAL" :=
  ⟨rfl,
    ((C6_amended_depot_labels [(⟨"ANSTO", 0, 0, 0, "Source"⟩, 0)]
      ⟨"ANSTO", 0, 0, 0, "Source"⟩ 30).2.2.2 ⟨"ANSTO", 0, 0, 0, "Source"⟩ []
      rfl).1⟩

/-- C8: with no router available (no client, or a client without a token),
the generated matrix is N×N, its diagonal is exactly zero, and every
off-diagonal entry (i,j) is the analytic fallback duration for the haversine
distance between location i and location j at the tier of location j. -/
theorem C8_fallback_matrix (locations : List NucMed.LocRec)
    (client : Option NucMed.TfNSWClient)
    (trip : NucMed.Location → NucMed.Location → Option ℝ)
    (hclient : client = none ∨ ∃ c, client = some c ∧ c.token = none) :
    (NucMed.generate_distance_matrix locations client trip).length =
      locations.length ∧
    (∀ row ∈ NucMed.generate_distance_matrix locations client trip,
      row.length = locations.length) ∧
    (∀ i, i < locations.length →
      ((NucMed.generate_distance_matrix locations client trip).getD i []).getD
        i 0 = 0) ∧
    (∀ i j, i < locations.length → j < locations.length → i ≠ j →
      ((NucMed.generate_distance_matrix locations client trip).getD i []).getD
        j 0 =
      NucMed.calculate_duration_fallback
        (NucMed.get_haversine_distance
          ⟨(locations.getD i default).lat, (locations.getD i default).lon⟩
          ⟨(locations.getD j default).lat, (locations.getD j default).lon⟩)
        (locations.getD j default).tier) := by
  rcases hclient with h | ⟨c, hc, ht⟩
  · subst h
    refine ⟨?_, ?_, ?_, ?_⟩
    · simp only [NucMed.generate_distance_matrix, List.length_map,
        List.length_range]
    · intro row hrow
      simp only [NucMed.generate_distance_matrix, List.mem_map] at hrow
      obtain ⟨i, _, hrow⟩ := hrow
      rw [← hrow]
      simp only [List.length_map, List.length_range]
    · intro i hi
      simp only [NucMed.generate_distance_matrix]
      rw [getD_map_range _ _ _ _ hi, getD_map_range _ _ _ _ hi, if_pos rfl]
    · intro i j hi hj hij
      simp only [NucMed.generate_distance_matrix]
      rw [getD_map_range _ _ _ _ hi, getD_map_range _ _ _ _ hj, if_neg hij]
      rfl
  · subst hc
    refine ⟨?_, ?_, ?_, ?_⟩
    · simp only [NucMed.generate_distance_matrix, List.length_map,
        List.length_range]
    · intro row hrow
      simp only [NucMed.generate_distance_matrix, List.mem_map] at hrow
      obtain ⟨i, _, hrow⟩ := hrow
      rw [← hrow]
      simp only [List.length_map, List.length_range]
    · intro i hi
      simp only [NucMed.generate_distance_matrix]
      rw [getD_map_range _ _ _ _ hi, getD_map_range _ _ _ _ hi, if_pos rfl]
    · intro i j hi hj hij
      simp only [NucMed.generate_distance_matrix]
      rw [getD_map_range _ _ _ _ hi, getD_map_range _ _ _ _ hj, if_neg hij]
      simp [ht]

/-- Witness for C8 with two concrete locations and no client. -/
theorem C8_fallback_matrix_witness :
    ((none : Option NucMed.TfNSWClient) = none ∨
      ∃ c, (none : Option NucMed.TfNSWClient) = some c ∧ c.token = none) ∧
    ((NucMed.generate_distance_matrix
        [⟨0, 0, 0⟩, ⟨0, 1, 1⟩] none (fun _ _ => none)).getD 0 []).getD 1 0 =
      NucMed.calculate_duration_fallback
        (NucMed.get_haversine_distance ⟨0, 0⟩ ⟨0, 1⟩) 1 :=
  ⟨Or.inl rfl,
    (C8_fallback_matrix [⟨0, 0, 0⟩, ⟨0, 1, 1⟩] none (fun _ _ => none)
      (Or.inl rfl)).2.2.2 0 1 (by norm_num) (by norm_num) (by norm_num)⟩

/-- C9 is a code bug: the simulator loads `output/routes.json`, which the
optimizer writes as an object with a `routes` list and an `analytics`
object, and iterates it directly; iterating the dict yields its string keys,
so subscripting that string with steps raises TypeError and the target selection never succeeds
(first conjunct). Moreover, even granting the list-of-routes shape the
loops inspect `steps[0]`, which is the tier-0 depot marker rather than the
first non-depot stop, so a baseline route whose first non-depot stop is the
tier-1 St George Hospital is still not found (second conjunct). -/
theorem C9_target_selection_fails :
    NucMed.pick_target_route NucMed.example_payload =
      Except.error "TypeError: string indices must be integers" ∧
    NucMed.pick_target_route (NucMed.PyVal.plist NucMed.example_routes) =
      Except.ok none :=
  ⟨rfl, rfl⟩

/-- C7: for every isotope with half-life H > 0 and initial activity A₀ ≥ 0,
the decay function satisfies activity(0) = A₀, activity(H) = A₀/2,
activity(2H) = A₀/4, is monotonically non-increasing in elapsed time over
its domain t ≥ 0, and never returns a negative value. -/
theorem C7_decay_laws (A H : ℝ) (hH : 0 < H) (hA : 0 ≤ A) :
    NucMed.calculate_remaining_activity A 0 H = Except.ok A ∧
    NucMed.calculate_remaining_activity A H H = Except.ok (A / 2) ∧
    NucMed.calculate_remaining_activity A (2 * H) H = Except.ok (A / 4) ∧
    (∀ t₁ t₂ a₁ a₂, 0 ≤ t₁ → t₁ ≤ t₂ →
      NucMed.calculate_remaining_activity A t₁ H = Except.ok a₁ →
      NucMed.calculate_remaining_activity A t₂ H = Except.ok a₂ → a₂ ≤ a₁) ∧
    (∀ t a, NucMed.calculate_remaining_activity A t H = Except.ok a → 0 ≤ a) := by
  have hH0 : H ≠ 0 := ne_of_gt hH
  refine ⟨?_, ?_, ?_, ?_, ?_⟩
  · rw [NucMed.calculate_remaining_activity_ok A 0 H hH le_rfl]
    unfold NucMed.remaining_activity_formula
    rw [mul_zero, Real.exp_zero, mul_one]
  · rw [NucMed.calculate_remaining_activity_ok A H H hH hH.le]
    unfold NucMed.remaining_activity_formula
    rw [neg_mul, div_mul_cancel₀ _ hH0, Real.exp_neg, Real.exp_log two_pos]
    rw [division_def]
  · rw [NucMed.calculate_remaining_activity_ok A (2 * H) H hH (by positivity)]
    unfold NucMed.remaining_activity_formula
    have harg : -(Real.log 2 / H) * (2 * H) = -(Real.log 2 + Real.log 2) := by
      field_simp; ring
    rw [harg, Real.exp_neg, Real.exp_add, Real.exp_log two_pos]
    norm_num [division_def]
  · intro t₁ t₂ a₁ a₂ ht₁ h12 e₁ e₂
    rw [NucMed.calculate_remaining_activity_ok A t₁ H hH ht₁] at e₁
    rw [NucMed.calculate_remaining_activity_ok A t₂ H hH (ht₁.trans h12)] at e₂
    have h₁ := Except.ok.inj e₁
    have h₂ := Except.ok.inj e₂
    subst h₁; subst h₂
    unfold NucMed.remaining_activity_formula
    have hc : 0 < Real.log 2 / H := div_pos (Real.log_pos one_lt_two) hH
    have : -(Real.log 2 / H) * t₂ ≤ -(Real.log 2 / H) * t₁ := by nlinarith
    exact mul_le_mul_of_nonneg_left (Real.exp_le_exp.mpr this) hA
  · intro t a e
    unfold NucMed.calculate_remaining_activity at e
    by_cases h1 : H ≤ 0
    · rw [if_pos h1] at e; exact absurd e (by simp)
    · rw [if_neg h1] at e
      by_cases h2 : t < 0
      · rw [if_pos h2] at e; exact absurd e (by simp)
      · rw [if_neg h2] at e
        have ha := Except.ok.inj e
        subst ha
        exact mul_nonneg hA (Real.exp_pos _).le

/-- Witness for C7 at the concrete Tc-99m configuration A₀ = 100, H = 6. -/
theorem C7_decay_laws_witness :
    (0 : ℝ) < 6 ∧ (0 : ℝ) ≤ 100 ∧
    NucMed.calculate_remaining_activity 100 0 6 = Except.ok 100 := by
  refine ⟨by norm_num, by norm_num, ?_⟩
  exact (C7_decay_laws 100 6 (by norm_num) (by norm_num)).1

/-- C4 (amended): for every origin, destination and avoid-point with a
non-degenerate direction vector, `_calculate_detour_waypoint` offsets the
avoid-point by ±0.045° along the unit perpendicular to origin→dest, and
returns whichever of the two candidate waypoints is FARTHER from the midpoint
of origin→dest (on a tie, the plus-offset candidate): the distance from the returned
waypoint to the midpoint is the maximum of the two candidate distances. -/
theorem C4_detour_waypoint_farther (origin dest : NucMed.Location)
    (avoid_lat avoid_lon : ℝ)
    (hmag : Real.sqrt ((-(dest.lon - origin.lon)) * (-(dest.lon - origin.lon)) +
      (dest.lat - origin.lat) * (dest.lat - origin.lat)) ≠ 0) :
    (NucMed.calculate_detour_waypoint origin dest avoid_lat avoid_lon =
        NucMed.detour_wp1 origin dest avoid_lat avoid_lon ∨
      NucMed.calculate_detour_waypoint origin dest avoid_lat avoid_lon =
        NucMed.detour_wp2 origin dest avoid_lat avoid_lon) ∧
    NucMed.get_haversine_distance
        (NucMed.calculate_detour_waypoint origin dest avoid_lat avoid_lon)
        (NucMed.segment_mid origin dest) =
      max (NucMed.get_haversine_distance
            (NucMed.detour_wp1 origin dest avoid_lat avoid_lon)
            (NucMed.segment_mid origin dest))
          (NucMed.get_haversine_distance
            (NucMed.detour_wp2 origin dest avoid_lat avoid_lon)
            (NucMed.segment_mid origin dest)) := by
  simp only [NucMed.calculate_detour_waypoint, NucMed.detour_wp1,
    NucMed.detour_wp2, NucMed.segment_mid]
  rw [if_neg hmag]
  split_ifs with h
  · exact ⟨Or.inr rfl, (max_eq_right h.le).symm⟩
  · exact ⟨Or.inl rfl, (max_eq_left (not_lt.mp h)).symm⟩

/-- Witness for the amended C4 at origin (0,0), dest (0,1),
avoid-point (−0.045, 0.5). -/
theorem C4_detour_waypoint_farther_witness :
    Real.sqrt ((-((1 : ℝ) - 0)) * (-(1 - 0)) + (0 - 0) * (0 - 0)) ≠ 0 ∧
    ((NucMed.calculate_detour_waypoint ⟨0, 0⟩ ⟨0, 1⟩ (-0.045) 0.5 =
        NucMed.detour_wp1 ⟨0, 0⟩ ⟨0, 1⟩ (-0.045) 0.5 ∨
      NucMed.calculate_detour_waypoint ⟨0, 0⟩ ⟨0, 1⟩ (-0.045) 0.5 =
        NucMed.detour_wp2 ⟨0, 0⟩ ⟨0, 1⟩ (-0.045) 0.5) ∧
    NucMed.get_haversine_distance
        (NucMed.calculate_detour_waypoint ⟨0, 0⟩ ⟨0, 1⟩ (-0.045) 0.5)
        (NucMed.segment_mid ⟨0, 0⟩ ⟨0, 1⟩) =
      max (NucMed.get_haversine_distance
            (NucMed.detour_wp1 ⟨0, 0⟩ ⟨0, 1⟩ (-0.045) 0.5)
            (NucMed.segment_mid ⟨0, 0⟩ ⟨0, 1⟩))
          (NucMed.get_haversine_distance
            (NucMed.detour_wp2 ⟨0, 0⟩ ⟨0, 1⟩ (-0.045) 0.5)
            (NucMed.segment_mid ⟨0, 0⟩ ⟨0, 1⟩))) := by
  have hm : Real.sqrt ((-((1 : ℝ) - 0)) * (-(1 - 0)) + (0 - 0) * (0 - 0)) ≠ 0 := by
    rw [show ((-((1 : ℝ) - 0)) * (-(1 - 0)) + (0 - 0) * (0 - 0)) = 1 by norm_num,
      Real.sqrt_one]
    exact one_ne_zero
  exact ⟨hm, C4_detour_waypoint_farther ⟨0, 0⟩ ⟨0, 1⟩ (-0.045) 0.5 hm⟩
